import Mathlib

/-!
Verification of the Broadchains report parser
(src/Broadchains_Reporting/broadchains_report_parser.py) against its
natural-language specification.

Python strings are modelled as `List Char`, pandas cells as `Option (List Char)`
(`none` models `NaN`/`None`), and fallible operations return `Option`
(`none` models a raised exception or a coerced `NaT`).
-/

namespace Broadchains

/-- Python strings are modelled as lists of characters. -/
abbrev Str := List Char

/-- The characters Python's default `str.strip()` removes (ASCII whitespace;
the rare non-ASCII Unicode spaces are not modelled, no input in the claims
contains them). -/
def isPySpace (c : Char) : Bool :=
  c == ' ' || c == '\t' || c == '\n' || c == '\r' || c == '\x0b' || c == '\x0c'

/-- Remove trailing whitespace (the right half of Python `str.strip()`). -/
def dropTrailingWS (s : Str) : Str :=
  (s.reverse.dropWhile isPySpace).reverse

/-- Python `str.strip()` with no argument: remove leading and trailing
whitespace. -/
def pyStrip (s : Str) : Str :=
  dropTrailingWS (s.dropWhile isPySpace)

/-- Python `f"{n:0wd}"` for a natural number: left-pad the decimal digits
with zeros up to width `w`. -/
def padZeros (w : Nat) (n : Nat) : Str :=
  let ds := Nat.toDigits 10 n
  List.replicate (w - ds.length) '0' ++ ds

/-- Python `f"{n:02d}"`. -/
def pad2 (n : Nat) : Str := padZeros 2 n

/-- Python `f"{n:04d}"`. -/
def pad4 (n : Nat) : Str := padZeros 4 n

/-- Value of one decimal digit character. -/
def digitVal? (c : Char) : Option Nat :=
  if c.isDigit then some (c.toNat - 48) else none

/-- Two decimal digit characters as a number. -/
def num2 (a b : Char) : Option Nat := do
  let x ← digitVal? a
  let y ← digitVal? b
  pure (10 * x + y)

/-- Four decimal digit characters as a number. -/
def num4 (a b c d : Char) : Option Nat := do
  let x ← num2 a b
  let y ← num2 c d
  pure (100 * x + y)

/-- The timestamp produced by `pd.to_datetime` (a `pandas.Timestamp`): the
calendar and clock components the parser reads (`.hour`, `.minute`,
`.second`, and the date part used for the per-day split). -/
structure PyDateTime where
  year : Nat
  month : Nat
  day : Nat
  hour : Nat
  minute : Nat
  second : Nat
deriving DecidableEq

/-- Models `pd.to_datetime(s, errors='coerce')` on an ISO-8601
`YYYY-MM-DD{T| }HH:MM:SS` string, the format the report data and the
claims exercise; any other shape coerces to `NaT`, modelled as `none`. -/
def parseDateTime (s : Str) : Option PyDateTime :=
  match s with
  | [y1, y2, y3, y4, '-', a1, a2, '-', b1, b2, sep,
     h1, h2, ':', i1, i2, ':', e1, e2] =>
    if sep = ' ' ∨ sep = 'T' then do
      let y ← num4 y1 y2 y3 y4
      let mo ← num2 a1 a2
      let d ← num2 b1 b2
      let h ← num2 h1 h2
      let mi ← num2 i1 i2
      let se ← num2 e1 e2
      if 1 ≤ mo ∧ mo ≤ 12 ∧ 1 ≤ d ∧ d ≤ 31 ∧ h ≤ 23 ∧ mi ≤ 59 ∧ se ≤ 59 then
        some ⟨y, mo, d, h, mi, se⟩
      else none
    else none
  | _ => none

/-- `str(pandas.Timestamp)`: the representation written to the output file
for the `date_received` cell. -/
def formatDT (dt : PyDateTime) : Str :=
  pad4 dt.year ++ '-' :: (pad2 dt.month ++ '-' :: (pad2 dt.day ++ ' ' ::
    (pad2 dt.hour ++ ':' :: (pad2 dt.minute ++ ':' :: pad2 dt.second))))

/-- Value of one hexadecimal digit character. -/
def hexDigitVal? (c : Char) : Option Nat :=
  if c.isDigit then some (c.toNat - 48)
  else if 'a' ≤ c ∧ c ≤ 'f' then some (c.toNat - 87)
  else if 'A' ≤ c ∧ c ≤ 'F' then some (c.toNat - 55)
  else none

/-- Accumulate hexadecimal digits left to right. -/
def hexDigitsAux : Nat → Str → Option Nat
  | acc, [] => some acc
  | acc, c :: rest =>
    match hexDigitVal? c with
    | some v => hexDigitsAux (16 * acc + v) rest
    | none => none

/-- A non-empty all-hex-digit string as a number. -/
def hexNum? : Str → Option Nat
  | [] => none
  | s => hexDigitsAux 0 s

/-- Models Python `int(x, 16)` on an already-stripped string: optional
sign, optional `0x`/`0X` marker, then hexadecimal digits; `none` models a
raised `ValueError`. (Underscore digit separators are not modelled; no
input in the claims contains them.) -/
def intHex? (s0 : Str) : Option Int :=
  let core : Str → Option Nat := fun t =>
    match t with
    | '0' :: x :: rest => if x = 'x' ∨ x = 'X' then hexNum? rest else hexNum? t
    | _ => hexNum? t
  match s0 with
  | '-' :: rest => (core rest).map (fun n => -(n : Int))
  | '+' :: rest => (core rest).map (fun n => (n : Int))
  | _ => (core s0).map (fun n => (n : Int))

/-- Python `str(i)` for an integer. -/
def intToStr (i : Int) : Str :=
  if i < 0 then '-' :: Nat.toDigits 10 i.natAbs else Nat.toDigits 10 i.natAbs

/-- `hex_to_dec` from the source. The argument is a pandas cell: `none`
models `NaN`/`None`. Python's Unicode `isalpha` is modelled by the ASCII
`Char.isAlpha`; on non-ASCII alphabetic characters both the source and the
model yield `'1'` (the source via its short-circuit, the model via the
failed parse), so the results coincide. -/
def hex_to_dec : Option Str → Str
  | none => ['1']
  | some v =>
    if pyStrip v = [] then ['1']
    else if ((pyStrip v).headD ' ').isAlpha then ['1']
    else
      match intHex? (pyStrip v) with
      | some n => intToStr n
      | none => ['1']

/-- `process_message_body` from the source: `NaN`/`None` becomes the empty
string; otherwise strip whitespace and remove every `"` character
(`str.replace('"', '')`). -/
def process_message_body (message : Option Str) : Str :=
  match message with
  | none => []
  | some m => (pyStrip m).filter (fun c => !(c == '"'))

/-- The `udh`-presence test of `create_tag`:
`udh is None or pd.isna(udh) or str(udh).strip() == ''` means absent. -/
def hasUdhB (udh : Option Str) : Bool :=
  match udh with
  | none => false
  | some u => decide (pyStrip u ≠ [])

/-- The `base_tag` computed by `create_tag`: with UDH present,
`udh_str[:-4]` (only when `len > 4`) joined to `to` with a dash; without
UDH, just the `to` value. -/
def baseTag (udh : Option Str) (toV : Str) : Str :=
  if hasUdhB udh then
    let u := match udh with | some u => u | none => []
    let udhPref := if 4 < u.length then u.take (u.length - 4) else u
    udhPref ++ '-' :: toV
  else toV

/-- The `time_suffix` computed by `create_tag`: empty when `date_received`
is missing or unparseable, otherwise `-HHMM` with UDH present and
`-HHMMSS` with UDH absent. -/
def timeSuffix (hasU : Bool) (d : Option PyDateTime) : Str :=
  match d with
  | none => []
  | some t =>
    if hasU then '-' :: (pad2 t.hour ++ pad2 t.minute)
    else '-' :: (pad2 t.hour ++ pad2 t.minute ++ pad2 t.second)

/-- `create_tag` from the source: `base_tag + time_suffix`. The third
argument is the parsed `date_received`; `none` models `NaN`/`None` or a
string `pd.to_datetime` cannot parse (both leave the suffix empty). -/
def create_tag (udh : Option Str) (toV : Str) (d : Option PyDateTime) : Str :=
  baseTag udh toV ++ timeSuffix (hasUdhB udh) d

/-- `extract_total_parts` from the source:
`hex_to_dec(udh_str[-4:][:2])` when `len(udh_str) >= 4`, else `'1'`. -/
def extract_total_parts (udh : Option Str) : Str :=
  match udh with
  | none => ['1']
  | some u =>
    if pyStrip u = [] then ['1']
    else if 4 ≤ u.length then hex_to_dec (some ((u.drop (u.length - 4)).take 2))
    else ['1']

/-- `extract_part_num` from the source: `hex_to_dec(udh_str[-2:])` when
`len(udh_str) >= 2` and the last two characters are alphanumeric,
else `'1'`. -/
def extract_part_num (udh : Option Str) : Str :=
  match udh with
  | none => ['1']
  | some u =>
    if 2 ≤ u.length ∧ (u.drop (u.length - 2)).all Char.isAlphanum then
      hex_to_dec (some (u.drop (u.length - 2)))
    else ['1']

/-- Python `str.split(sep)` for a one-character separator: split on every
occurrence, keeping empty pieces. -/
def pySplit (sep : Char) : Str → List Str
  | [] => [[]]
  | c :: rest =>
    if c = sep then [] :: pySplit sep rest
    else
      match pySplit sep rest with
      | [] => [[c]]
      | t :: ts => (c :: t) :: ts

/-- The API-key extraction in `process_csv`:
`filename.split('_')[2] if '_' in filename else 'unknown'`.
`none` models the `IndexError` the indexing raises when the split has
fewer than three pieces. -/
def api_key (filename : Str) : Option Str :=
  if '_' ∈ filename then (pySplit '_' filename).get? 2
  else some ("unknown".toList)

/-- `REQUIRED_COLUMNS` from the source, in order. -/
def REQUIRED_COLUMNS : List Str :=
  [("account_id".toList), ("message_id".toList), ("direction".toList),
   ("from".toList), ("to".toList), ("forced_from".toList),
   ("message_body".toList), ("concatenated".toList), ("network".toList),
   ("network_name".toList), ("country".toList), ("country_name".toList),
   ("date_received".toList), ("date_finalized".toList), ("latency".toList),
   ("status".toList), ("error_code".toList),
   ("error_code_description".toList), ("currency".toList),
   ("total_price".toList), ("udh".toList)]

def colTo : Str := "to".toList
def colUdh : Str := "udh".toList
def colMessageBody : Str := "message_body".toList
def colDateReceived : Str := "date_received".toList
def colNetwork : Str := "network".toList

/-- One raw input row: column name to pandas cell; a cell of `none`
models `NaN`. -/
abbrev RawRow := List (Str × Option Str)

/-- The value of a required column after the per-chunk projection: a
column absent from the chunk is filled with the empty string
(`df[col] = ''`); a present cell keeps its (possibly `NaN`) value. -/
def getCell (r : RawRow) (c : Str) : Option Str :=
  match r.lookup c with
  | some cell => cell
  | none => some []

/-- The `to` value interpolated into the tag: `f"{to}"` renders a `NaN`
cell as the literal text `nan`. -/
def toVal (r : RawRow) : Str :=
  match getCell r colTo with
  | some s => s
  | none => "nan".toList

/-- `pd.to_datetime(df['date_received'], errors='coerce')` on one row:
a `NaN` cell or an unparseable string coerces to `NaT` (`none`). -/
def parseCell (r : RawRow) : Option PyDateTime :=
  match getCell r colDateReceived with
  | none => none
  | some s => parseDateTime s

/-- The value written for one required column of an emitted row:
`message_body` is sanitized, `date_received` is the parsed timestamp's
text, and any other `NaN` cell becomes the empty string
(`group.fillna('')`). -/
def outputCell (r : RawRow) (dt : PyDateTime) (c : Str) : Str :=
  if c = colMessageBody then process_message_body (getCell r c)
  else if c = colDateReceived then formatDT dt
  else
    match getCell r c with
    | some s => s
    | none => []

/-- The 21 required-column values of an emitted row, in
`REQUIRED_COLUMNS` order. -/
def requiredOut (r : RawRow) (dt : PyDateTime) : List Str :=
  REQUIRED_COLUMNS.map (outputCell r dt)

/-- The three derived columns of an emitted row: `Tag`, `Total Parts`,
`Part Num`, computed independently from the raw `udh` cell. -/
def derivedOut (r : RawRow) (dt : PyDateTime) : List Str :=
  [create_tag (getCell r colUdh) (toVal r) (some dt),
   extract_total_parts (getCell r colUdh),
   extract_part_num (getCell r colUdh)]

/-- One row through the body of `process_csv`: rows whose
`date_received` coerces to `NaT` are dropped (`df.dropna`); a surviving
row becomes its parsed date plus the 24 output values (21 required, then
`Tag`, `Total Parts`, `Part Num`, with the temporary `date_key` column
dropped again before writing). -/
def processRow (r : RawRow) : Option (PyDateTime × List Str) :=
  match parseCell r with
  | none => none
  | some dt => some (dt, requiredOut r dt ++ derivedOut r dt)

/-- The output file name `f"{api_key}-{date_str}.csv"` with
`date_str = date.strftime('%Y-%m-%d')`. -/
def outFileName (key : Str) (dt : PyDateTime) : Str :=
  key ++ '-' :: (pad4 dt.year ++ '-' :: (pad2 dt.month ++ '-' :: pad2 dt.day))
    ++ (".csv".toList)

/-- `df.groupby('date_key')` followed by the per-group writes: each
distinct output file name paired with the rows written to it. -/
def groupRows (key : Str) (rows : List RawRow) : List (Str × List (List Str)) :=
  let processed := rows.filterMap processRow
  ((processed.map (fun p => outFileName key p.1)).dedup).map
    (fun k => (k, (processed.filter
      (fun p => decide (outFileName key p.1 = k))).map Prod.snd))

/-- `process_csv` on one chunk: extract the API key from the file name
(an `IndexError` there aborts the run), check the 21 required columns
against the header once — a missing column aborts the run before any row
is processed and produces no output files (`none`) — then emit the
per-date files. -/
def process_csv (filename : Str) (header : List Str) (rows : List RawRow) :
    Option (List (Str × List (List Str))) :=
  match api_key filename with
  | none => none
  | some key =>
    if ∀ c ∈ REQUIRED_COLUMNS, c ∈ header then some (groupRows key rows)
    else none

/-- `csv.QUOTE_ALL` escaping of one field's content: every `"` in the
value is doubled. -/
def escQuotes : Str → Str
  | [] => []
  | c :: rest =>
    if c = '"' then '"' :: '"' :: escQuotes rest else c :: escQuotes rest

/-- A data-row field as written by `csv.writer(..., quoting=csv.QUOTE_ALL)`:
the escaped content wrapped in one pair of quotes. -/
def quoteField (s : Str) : Str := '"' :: (escQuotes s ++ ['"'])

/-- Number of `"` characters in a string. -/
def countQuote : Str → Nat
  | [] => 0
  | c :: rest => (if c = '"' then 1 else 0) + countQuote rest

/-- The `fix_triple_quotes` post-pass on file content:
`content.replace('"""', '"')`, Python's left-to-right non-overlapping
replacement. -/
def replaceTriple : Str → Str
  | '"' :: '"' :: '"' :: rest => '"' :: replaceTriple rest
  | c :: rest => c :: replaceTriple rest
  | [] => []

/-! ### Sample data for concrete runs -/

/-- A sample input file name with three underscores; its third
underscore-delimited token is `APIKEY`. -/
def sampleFn : Str := "report_daily_APIKEY_2025.csv".toList

/-- A sample raw row with all 21 required columns, a `NaN` `network`
cell, a quoted message body, a multipart UDH and a valid timestamp. -/
def sampleRow : RawRow :=
  [(("account_id".toList), some ("acc1".toList)),
   (("message_id".toList), some ("m1".toList)),
   (("direction".toList), some ("outbound".toList)),
   (("from".toList), some ("Sender".toList)),
   (colTo, some ("12345".toList)),
   (("forced_from".toList), some []),
   (colMessageBody, some ("Hello \"world\"".toList)),
   (("concatenated".toList), some ("true".toList)),
   (colNetwork, none),
   (("network_name".toList), some ("Net".toList)),
   (("country".toList), some ("FR".toList)),
   (("country_name".toList), some ("France".toList)),
   (colDateReceived, some ("2025-05-09T14:07:33".toList)),
   (("date_finalized".toList), some ("2025-05-09T14:07:35".toList)),
   (("latency".toList), some ("2000".toList)),
   (("status".toList), some ("delivered".toList)),
   (("error_code".toList), some ("0".toList)),
   (("error_code_description".toList), some []),
   (("currency".toList), some ("EUR".toList)),
   (("total_price".toList), some ("0.05".toList)),
   (colUdh, some ("0500030201".toList))]

/-- The timestamp carried by `sampleRow`. -/
def sampleDT : PyDateTime := ⟨2025, 5, 9, 14, 7, 33⟩

/-- The file set produced by processing `sampleRow`. -/
def sampleFiles : List (Str × List (List Str)) :=
  groupRows ("APIKEY".toList) [sampleRow]

/-- The single output file of `sampleFiles`. -/
def sampleFile : Str × List (List Str) := sampleFiles.headD ([], [])

/-- The single emitted row of `sampleFile`. -/
def sampleOutRow : List Str := sampleFile.2.headD []

/-- The processed form of `sampleRow`. -/
def sampleProcessed : PyDateTime × List Str :=
  (processRow sampleRow).getD (sampleDT, [])

/-- A raw row whose `date_received` cell `pd.to_datetime` cannot parse. -/
def sampleBadRow : RawRow := [(colDateReceived, some ("not a date".toList))]

/-! ### Helper lemmas -/

lemma take_append_self {α : Type} (l₁ l₂ : List α) :
    (l₁ ++ l₂).take l₁.length = l₁ := by
  induction l₁ with
  | nil => rfl
  | cons a t ih => simp [ih]

lemma drop_append_self {α : Type} (l₁ l₂ : List α) :
    (l₁ ++ l₂).drop l₁.length = l₂ := by
  induction l₁ with
  | nil => rfl
  | cons a t ih => simp [ih]

lemma requiredOut_length (r : RawRow) (dt : PyDateTime) :
    (requiredOut r dt).length = 21 := by
  simp [requiredOut]
  rfl

lemma processRow_some {r : RawRow} {dt : PyDateTime} {row : List Str}
    (h : processRow r = some (dt, row)) :
    parseCell r = some dt ∧ row = requiredOut r dt ++ derivedOut r dt := by
  unfold processRow at h
  cases hp : parseCell r with
  | none => rw [hp] at h; cases h
  | some d =>
    rw [hp] at h
    simp only [Option.some.injEq, Prod.mk.injEq] at h
    obtain ⟨h1, h2⟩ := h
    subst h1
    exact ⟨rfl, h2.symm⟩

lemma mem_process_csv {fn : Str} {header : List Str} {rows : List RawRow}
    {files : List (Str × List (List Str))} {f : Str × List (List Str)}
    {row : List Str}
    (hp : process_csv fn header rows = some files) (hf : f ∈ files)
    (hr : row ∈ f.2) :
    ∃ r dt, r ∈ rows ∧ processRow r = some (dt, row) := by
  unfold process_csv at hp
  split at hp
  · cases hp
  · split at hp
    · injection hp with hp
      subst hp
      unfold groupRows at hf
      simp only [List.mem_map] at hf
      obtain ⟨k, _, hfk⟩ := hf
      subst hfk
      simp only [List.mem_map] at hr
      obtain ⟨p, hpmem, hps⟩ := hr
      rw [List.mem_filter] at hpmem
      obtain ⟨hpmem, _⟩ := hpmem
      rw [List.mem_filterMap] at hpmem
      obtain ⟨r, hrmem, hpr⟩ := hpmem
      obtain ⟨dt0, out⟩ := p
      subst hps
      exact ⟨r, dt0, hrmem, hpr⟩
    · cases hp

lemma countQuote_append (a b : Str) :
    countQuote (a ++ b) = countQuote a + countQuote b := by
  induction a with
  | nil => simp [countQuote]
  | cons c t ih => simp [countQuote, ih]; omega

lemma countQuote_filter (l : Str) :
    countQuote (l.filter (fun c => !(c == '"'))) = 0 := by
  induction l with
  | nil => rfl
  | cons c t ih =>
    by_cases h : c = '"'
    · simp [List.filter_cons, h, ih]
    · simp [List.filter_cons, h, countQuote, ih]

lemma countQuote_pmb (m : Option Str) :
    countQuote (process_message_body m) = 0 := by
  cases m with
  | none => rfl
  | some s => exact countQuote_filter (pyStrip s)

lemma countQuote_cons_zero {c : Char} {t : Str}
    (h : countQuote (c :: t) = 0) : c ≠ '"' ∧ countQuote t = 0 := by
  by_cases hc : c = '"'
  · simp [countQuote, hc] at h
  · simp [countQuote, hc] at h
    exact ⟨hc, h⟩

lemma escQuotes_no_quote {s : Str} (h : countQuote s = 0) :
    escQuotes s = s := by
  induction s with
  | nil => rfl
  | cons c t ih =>
    obtain ⟨hc, ht⟩ := countQuote_cons_zero h
    simp [escQuotes, hc, ih ht]

lemma quoteField_no_quote {s : Str} (h : countQuote s = 0) :
    quoteField s = '"' :: (s ++ ['"']) := by
  rw [quoteField, escQuotes_no_quote h]

lemma replaceTriple_cons_ne {c : Char} (l : Str) (h : c ≠ '"') :
    replaceTriple (c :: l) = c :: replaceTriple l := by
  rw [replaceTriple.eq_def]
  split
  · next rest heq =>
    exfalso
    injection heq with h1 _
    exact h h1
  · next c' rest heq =>
    injection heq with h1 h2
    subst h1
    subst h2
    rfl
  · next heq => cases heq

lemma replaceTriple_quote_cons_ne {c : Char} (l : Str) (h : c ≠ '"') :
    replaceTriple ('"' :: c :: l) = '"' :: replaceTriple (c :: l) := by
  rw [replaceTriple.eq_def]
  split
  · next rest heq =>
    exfalso
    injection heq with _ h2
    injection h2 with h3 _
    exact h h3
  · next c' rest heq =>
    injection heq with h1 h2
    subst h1
    subst h2
    rfl
  · next heq => cases heq

lemma replaceTriple_no_quote_append {xs : Str} (h : countQuote xs = 0) :
    replaceTriple (xs ++ ['"']) = xs ++ ['"'] := by
  induction xs with
  | nil => decide
  | cons c t ih =>
    obtain ⟨hc, ht⟩ := countQuote_cons_zero h
    rw [List.cons_append, replaceTriple_cons_ne _ hc, ih ht]

lemma replaceTriple_field {b : Str} (h : countQuote b = 0) :
    replaceTriple ('"' :: (b ++ ['"'])) = '"' :: (b ++ ['"']) := by
  cases b with
  | nil => decide
  | cons c t =>
    obtain ⟨hc, _⟩ := countQuote_cons_zero h
    rw [List.cons_append, replaceTriple_quote_cons_ne _ hc,
      ← List.cons_append, replaceTriple_no_quote_append h]

lemma isPySpace_eq_false_of_isAlpha {c : Char} (h : c.isAlpha = true) :
    isPySpace c = false := by
  cases hA : isPySpace c
  · rfl
  · exfalso
    have hc : ((((c = ' ' ∨ c = '\t') ∨ c = '\n') ∨ c = '\r') ∨ c = '\x0b') ∨
        c = '\x0c' := by
      simpa [isPySpace, Bool.or_eq_true, beq_iff_eq] using hA
    rcases hc with ((((h' | h') | h') | h') | h') | h' <;> subst h' <;>
      exact absurd h (by decide)

lemma dropTrailingWS_cons_not_space {c : Char} (l : Str)
    (h : isPySpace c = false) :
    dropTrailingWS (c :: l) = c :: dropTrailingWS l := by
  unfold dropTrailingWS
  rw [show (c :: l).reverse = l.reverse ++ [c] by simp]
  rw [List.dropWhile_append]
  by_cases he : (l.reverse.dropWhile isPySpace).isEmpty
  · rw [if_pos he]
    rw [List.isEmpty_iff] at he
    rw [he]
    simp [List.dropWhile_cons, h]
  · rw [if_neg he]
    simp

lemma pyStrip_cons_not_space {c : Char} (l : Str) (h : isPySpace c = false) :
    pyStrip (c :: l) = c :: dropTrailingWS l := by
  unfold pyStrip
  rw [List.dropWhile_cons, if_neg (by simp [h])]
  exact dropTrailingWS_cons_not_space _ h

lemma hex_to_dec_alpha {v : Str} (hne : v ≠ [])
    (h : (v.headD ' ').isAlpha = true) : hex_to_dec (some v) = ['1'] := by
  obtain ⟨c, l, rfl⟩ := List.exists_cons_of_ne_nil hne
  simp only [List.headD_cons] at h
  have hws := isPySpace_eq_false_of_isAlpha h
  show (if pyStrip (c :: l) = [] then ['1']
    else if ((pyStrip (c :: l)).headD ' ').isAlpha then ['1']
    else
      match intHex? (pyStrip (c :: l)) with
      | some n => intToStr n
      | none => ['1']) = ['1']
  rw [pyStrip_cons_not_space _ hws]
  rw [if_neg (by simp)]
  rw [if_pos (by simpa using h)]

lemma pySplit_length (sep : Char) (s : Str) :
    (pySplit sep s).length = s.count sep + 1 := by
  induction s with
  | nil => simp [pySplit]
  | cons c rest ih =>
    by_cases h : c = sep
    · subst h
      simp [pySplit, List.count_cons, ih]
    · rw [List.count_cons]
      cases hp : pySplit sep rest with
      | nil => rw [hp] at ih; simp at ih
      | cons t ts =>
        rw [hp] at ih
        simp only [List.length_cons] at ih
        simp [pySplit, h, hp, ← ih, beq_iff_eq]

/-! ### The claims -/

/-- C1 (counterexample): on `udh = "0500030201"`, `to = "12345"`,
`date_received = 2025-05-09T14:07:33` the code does NOT produce the
Tag `"05000302-12345-1407"` and Total Parts `"3"` the spec's example
states: `udh_str[:-4]` of the 10-character string is `"050003"`, and
`udh[-4:-2]` is `"02"`. -/
theorem C1_counterexample :
    ¬ (create_tag (some ("0500030201".toList)) ("12345".toList)
         (parseDateTime ("2025-05-09T14:07:33".toList))
         = "05000302-12345-1407".toList ∧
       extract_total_parts (some ("0500030201".toList)) = "3".toList) := by
  decide

/-- C1 (amended): on `udh = "0500030201"`, `to = "12345"`,
`date_received = 2025-05-09T14:07:33` the derived Tag is
`"050003-12345-1407"` and the derived Total Parts is `"2"`
(hex of `"02"`, the characters at positions `[-4:-2]`). -/
theorem C1_tag_total_parts :
    create_tag (some ("0500030201".toList)) ("12345".toList)
      (parseDateTime ("2025-05-09T14:07:33".toList))
      = "050003-12345-1407".toList ∧
    extract_total_parts (some ("0500030201".toList)) = "2".toList := by
  decide

/-- C2 (counterexample): the hex decoder applied to `"A0"` does not
return `"160"`; the leading-alphabetic short-circuit returns `"1"`. -/
theorem C2_counterexample :
    hex_to_dec (some ("A0".toList)) ≠ "160".toList := by decide

/-- C2 (amended): the hex decoder returns `"1"` on every input whose
first character is alphabetic — including `"A0"` (not `"160"`) — and
returns `"1"` on `""` and on `"ZZ"`. -/
theorem C2_hex_decoder :
    (∀ v : Str, v ≠ [] → (v.headD ' ').isAlpha = true →
      hex_to_dec (some v) = ['1']) ∧
    hex_to_dec (some ("A0".toList)) = ['1'] ∧
    hex_to_dec (some ([] : Str)) = ['1'] ∧
    hex_to_dec (some ("ZZ".toList)) = ['1'] :=
  ⟨fun _ hne h => hex_to_dec_alpha hne h, by decide, by decide, by decide⟩

/-- C2 (witness): the amended theorem applied to the concrete
leading-alphabetic input `"Zx42"`. -/
theorem C2_hex_decoder_witness : hex_to_dec (some ("Zx42".toList)) = ['1'] :=
  C2_hex_decoder.1 ("Zx42".toList) (by decide) (by decide)

/-- C3 (counterexample): a record with `to` and `udh` both empty but a
valid `date_received` has Tag `"-140733"`, not the empty string. -/
theorem C3_counterexample :
    create_tag none ([] : Str)
      (parseDateTime ("2025-05-09T14:07:33".toList)) ≠ [] := by decide

/-- C3 (amended): for a record in which `to` and `udh` are both empty,
the derived Tag is the bare dash-prefixed `-HHMMSS` time suffix when
`date_received` is valid, and the empty string only when
`date_received` is missing or unparseable. -/
theorem C3_empty_tag (udh : Option Str) (t : PyDateTime)
    (h : hasUdhB udh = false) :
    create_tag udh [] (some t)
      = '-' :: (pad2 t.hour ++ pad2 t.minute ++ pad2 t.second) ∧
    create_tag udh [] none = [] := by
  constructor <;> simp [create_tag, baseTag, timeSuffix, h]

/-- C3 (witness): the amended theorem applied to the empty record with
the concrete timestamp 14:07:33. -/
theorem C3_empty_tag_witness :
    create_tag none [] (some (PyDateTime.mk 2025 5 9 14 7 33))
      = '-' :: (pad2 14 ++ pad2 7 ++ pad2 33) ∧
    create_tag none [] none = [] :=
  C3_empty_tag none (PyDateTime.mk 2025 5 9 14 7 33) rfl

/-- C4: when `udh` is empty and `date_received` parses, the Tag is `to`
concatenated directly with the dash-prefixed `HHMMSS` suffix; in
particular `udh = ""`, `to = "98765"`,
`date_received = 2025-05-09T14:07:33` gives `"98765-140733"`. -/
theorem C4_tag_udh_blank :
    (∀ (toV : Str) (t : PyDateTime),
      create_tag (some []) toV (some t)
        = toV ++ '-' :: (pad2 t.hour ++ pad2 t.minute ++ pad2 t.second)) ∧
    create_tag (some []) ("98765".toList)
      (parseDateTime ("2025-05-09T14:07:33".toList))
      = "98765-140733".toList := by
  constructor
  · intro toV t
    simp [create_tag, baseTag, timeSuffix, hasUdhB, pyStrip, dropTrailingWS]
  · decide

/-- C4 (witness): the universal part of the theorem applied to a
concrete recipient and timestamp. -/
theorem C4_tag_udh_blank_witness :
    create_tag (some []) ("77".toList) (some (PyDateTime.mk 2025 1 2 3 4 5))
      = "77".toList ++ '-' :: (pad2 3 ++ pad2 4 ++ pad2 5) :=
  C4_tag_udh_blank.1 ("77".toList) (PyDateTime.mk 2025 1 2 3 4 5)

/-- C5: every row written to any output file has exactly 24 columns —
the 21 required column values in `REQUIRED_COLUMNS` order followed by
`Tag`, `Total Parts`, `Part Num` — for every emitted file. -/
theorem C5_output_row_shape (fn : Str) (header : List Str)
    (rows : List RawRow) (files : List (Str × List (List Str)))
    (hp : process_csv fn header rows = some files) :
    ∀ f ∈ files, ∀ row ∈ f.2, row.length = 24 ∧
      ∃ r dt, r ∈ rows ∧ processRow r = some (dt, row) ∧
        row.take 21 = requiredOut r dt ∧
        row.drop 21 = [create_tag (getCell r colUdh) (toVal r) (some dt),
                       extract_total_parts (getCell r colUdh),
                       extract_part_num (getCell r colUdh)] := by
  intro f hf row hr
  obtain ⟨r, dt, hrmem, hpr⟩ := mem_process_csv hp hf hr
  obtain ⟨-, hrow⟩ := processRow_some hpr
  subst hrow
  refine ⟨?_, r, dt, hrmem, hpr, ?_, ?_⟩
  · rw [List.length_append, requiredOut_length]
    rfl
  · rw [show (21 : Nat) = (requiredOut r dt).length from
      (requiredOut_length r dt).symm]
    exact take_append_self _ _
  · rw [show (21 : Nat) = (requiredOut r dt).length from
      (requiredOut_length r dt).symm]
    rw [drop_append_self]
    rfl

/-- C5 (witness): the theorem applied to a concrete one-row run; the
emitted row has 24 columns. -/
theorem C5_output_row_shape_witness : sampleOutRow.length = 24 :=
  (C5_output_row_shape sampleFn REQUIRED_COLUMNS [sampleRow] sampleFiles
    (by decide) sampleFile (by decide) sampleOutRow (by decide)).1

/-- C6: for every `message_body` input cell (including `NaN`/absent and
values containing quote characters), the sanitized body contains zero
quote characters, the serialized field is that body wrapped in exactly
one pair of quotes (two quote characters in total), and the
`fix_triple_quotes` post-pass leaves the field unchanged. -/
theorem C6_message_body_quoting (m : Option Str) :
    countQuote (process_message_body m) = 0 ∧
    quoteField (process_message_body m)
      = '"' :: (process_message_body m ++ ['"']) ∧
    countQuote (quoteField (process_message_body m)) = 2 ∧
    replaceTriple (quoteField (process_message_body m))
      = quoteField (process_message_body m) := by
  have h0 := countQuote_pmb m
  refine ⟨h0, quoteField_no_quote h0, ?_, ?_⟩
  · rw [quoteField_no_quote h0]
    simp [countQuote, countQuote_append, h0]
  · rw [quoteField_no_quote h0]
    exact replaceTriple_field h0

/-- C6 (witness): the theorem applied to a concrete message body
containing quotes. -/
theorem C6_message_body_quoting_witness :
    countQuote (process_message_body (some ("say \"hi\"".toList))) = 0 ∧
    quoteField (process_message_body (some ("say \"hi\"".toList)))
      = '"' :: (process_message_body (some ("say \"hi\"".toList)) ++ ['"']) ∧
    countQuote (quoteField (process_message_body
      (some ("say \"hi\"".toList)))) = 2 ∧
    replaceTriple (quoteField (process_message_body
      (some ("say \"hi\"".toList))))
      = quoteField (process_message_body (some ("say \"hi\"".toList))) :=
  C6_message_body_quoting (some ("say \"hi\"".toList))

/-- C7 (counterexample): for the input file name `"a_b.csv"` — one
underscore, so no third underscore-delimited token — the code raises
`IndexError` (modelled `none`) instead of using `"unknown"`. -/
theorem C7_counterexample :
    api_key ("a_b.csv".toList) = none ∧
    api_key ("a_b.csv".toList) ≠ some ("unknown".toList) := by decide

/-- C7 (amended): the `api_key` is the third underscore-delimited token
of the input file name when the name contains at least two underscores;
it is `"unknown"` when the name contains no underscore at all; and when
the name contains exactly one underscore the indexing raises
`IndexError` (aborting the run) rather than producing `"unknown"`. -/
theorem C7_api_key_tokens (f : Str) :
    ('_' ∉ f → api_key f = some ("unknown".toList)) ∧
    (2 ≤ f.count '_' →
      api_key f = (pySplit '_' f).get? 2 ∧ (pySplit '_' f).get? 2 ≠ none) ∧
    (f.count '_' = 1 → api_key f = none) := by
  refine ⟨?_, ?_, ?_⟩
  · intro h
    unfold api_key
    rw [if_neg h]
  · intro h
    have hmem : '_' ∈ f := by
      rw [← List.count_pos_iff]
      omega
    constructor
    · unfold api_key
      rw [if_pos hmem]
    · have hlen : 3 ≤ (pySplit '_' f).length := by
        rw [pySplit_length]
        omega
      intro hnone
      rw [List.get?_eq_none] at hnone
      omega
  · intro h
    have hmem : '_' ∈ f := by
      rw [← List.count_pos_iff]
      omega
    unfold api_key
    rw [if_pos hmem]
    exact List.get?_eq_none.mpr (by rw [pySplit_length]; omega)

/-- C7 (witness): the amended theorem applied to concrete file names
with zero and with one underscore. -/
theorem C7_api_key_tokens_witness :
    api_key ("abc.csv".toList) = some ("unknown".toList) ∧
    api_key ("a_b.csv".toList) = none :=
  ⟨(C7_api_key_tokens ("abc.csv".toList)).1 (by decide),
   (C7_api_key_tokens ("a_b.csv".toList)).2.2 (by decide)⟩

/-- C8: if any of the 21 required columns is missing from the input
header, the run fails (`none`) producing no output files, and the
result is the same as if no row at all were processed — the schema
check happens once, before row processing. -/
theorem C8_schema_abort (fn : Str) (header : List Str) (rows : List RawRow)
    (hmiss : ∃ c ∈ REQUIRED_COLUMNS, c ∉ header) :
    process_csv fn header rows = none ∧
    process_csv fn header rows = process_csv fn header [] := by
  obtain ⟨c, hcr, hch⟩ := hmiss
  have hnot : ¬ ∀ c ∈ REQUIRED_COLUMNS, c ∈ header := fun h => hch (h c hcr)
  unfold process_csv
  cases api_key fn with
  | none => exact ⟨rfl, rfl⟩
  | some key => simp [hnot]

/-- C8 (witness): the theorem applied to a concrete header missing the
`udh` column. -/
theorem C8_schema_abort_witness :
    process_csv sampleFn [("account_id".toList)] [sampleRow] = none :=
  (C8_schema_abort sampleFn [("account_id".toList)] [sampleRow]
    ⟨colUdh, by decide, by decide⟩).1

/-- C9: a row whose `date_received` fails to parse is dropped before the
Tag is computed, and every row of every output file carries a Tag built
from a successfully parsed date, whose time suffix is non-empty (the
empty-suffix fallback is unreachable for emitted rows). -/
theorem C9_dropped_dates (fn : Str) (header : List Str) (rows : List RawRow)
    (files : List (Str × List (List Str))) :
    (∀ r : RawRow, parseCell r = none → processRow r = none) ∧
    (process_csv fn header rows = some files →
      ∀ f ∈ files, ∀ row ∈ f.2, ∃ r dt, r ∈ rows ∧ parseCell r = some dt ∧
        row.get? 21 = some (baseTag (getCell r colUdh) (toVal r)
          ++ timeSuffix (hasUdhB (getCell r colUdh)) (some dt)) ∧
        timeSuffix (hasUdhB (getCell r colUdh)) (some dt) ≠ []) := by
  constructor
  · intro r h
    unfold processRow
    rw [h]
  · intro hp f hf row hr
    obtain ⟨r, dt, hrmem, hpr⟩ := mem_process_csv hp hf hr
    obtain ⟨hparse, hrow⟩ := processRow_some hpr
    refine ⟨r, dt, hrmem, hparse, ?_, ?_⟩
    · subst hrow
      rw [show (21 : Nat) = (requiredOut r dt).length from
        (requiredOut_length r dt).symm]
      rw [List.get?_append_right (le_refl _)]
      simp [derivedOut, create_tag]
    · cases hu : hasUdhB (getCell r colUdh) <;> simp [timeSuffix]

/-- C9 (witness): the theorem's first part applied to a concrete row
whose `date_received` does not parse. -/
theorem C9_dropped_dates_witness : processRow sampleBadRow = none :=
  (C9_dropped_dates sampleFn REQUIRED_COLUMNS [] []).1 sampleBadRow
    (by decide)

/-- C10: in every emitted row, a required column whose input cell is
missing/`NaN` is written as the empty string — never as the literal
text `nan` or `NaN`. -/
theorem C10_nan_written_empty (r : RawRow) (dt : PyDateTime)
    (row : List Str) (i : Nat) (c : Str)
    (hpr : processRow r = some (dt, row))
    (hc : REQUIRED_COLUMNS.get? i = some c)
    (hnan : getCell r c = none) :
    row.get? i = some [] ∧ row.get? i ≠ some ("nan".toList) ∧
      row.get? i ≠ some ("NaN".toList) := by
  obtain ⟨hparse, hrow⟩ := processRow_some hpr
  have hi : i < REQUIRED_COLUMNS.length := by
    by_contra hlt
    push_neg at hlt
    rw [List.get?_eq_none.mpr hlt] at hc
    cases hc
  have hval : row.get? i = some [] := by
    subst hrow
    rw [List.get?_append (by rw [requiredOut_length]; exact hi)]
    unfold requiredOut
    rw [List.get?_map, hc]
    have hcell : outputCell r dt c = [] := by
      unfold outputCell
      by_cases h1 : c = colMessageBody
      · subst h1
        rw [if_pos rfl, hnan]
        rfl
      · rw [if_neg h1]
        by_cases h2 : c = colDateReceived
        · exfalso
          rw [h2] at hnan
          unfold parseCell at hparse
          rw [hnan] at hparse
          cases hparse
        · rw [if_neg h2, hnan]
    simp [hcell]
  exact ⟨hval, by rw [hval]; decide, by rw [hval]; decide⟩

/-- C10 (witness): the theorem applied to the sample row, whose
`network` cell (required column index 8) is `NaN`. -/
theorem C10_nan_written_empty_witness : sampleProcessed.2.get? 8 = some [] :=
  (C10_nan_written_empty sampleRow sampleDT sampleProcessed.2 8 colNetwork
    (by decide) (by decide) (by decide)).1

end Broadchains
